import Mathlib

/-!
# Verification of the DiceDB websocket connection protocol engine

Shallow embedding of `internal/server/websocketServer.go`: the response
transcoder (`processResponse`), the resilient write helper
(`WriteResponseWithRetries`), the live-update fan-out task
(`processQwatchUpdates`) and the abort handling of the dispatch loop
(`WebsocketHandler`).

Go strings and byte slices are modelled as byte sequences (`List Nat`);
Go's `string(bt)` conversion of a byte slice reinterprets the bytes as a
(UTF-8) string without transformation, so it is the identity on this
representation.  External collaborators (the RESP decoder
`clientio.RESPParser.DecodeOne`, `json.Marshal`, the registry
`WorkerCmdsMeta`, and the underlying connection write) are parameters of
the embedding, collected in `TranscodeEnv`; the logic of the file under
verification is translated literally.
-/

namespace DiceWS

/-- A Go string / byte slice, as its byte sequence. -/
abbrev GoStr := List Nat

/-- Byte sequence of an ASCII literal. -/
def strLit (s : String) : GoStr := s.data.map Char.toNat

/-- A Go `interface{}` value as it can occur as a response payload.
`respType` is a value of the external enum `clientio.RespType`, which has
exactly the eight sentinel constants indexing `respArr`; `bytes` is a
`[]byte`; `str` a `string`; the remaining constructors stand for the other
native result shapes (which `processResponse` passes through untouched
before JSON serialization). -/
inductive GoVal where
  | bytes (bs : GoStr)
  | str (s : GoStr)
  | respType (i : Fin 8)
  | intVal (n : Int)
  | nilVal
  | otherVal (tag : Nat)
deriving DecidableEq, Repr

/-- The struct `comm.QwatchResponse`: client identifier, result payload, error
(the error is modelled by its message `err.Error()`, `none` for `nil`). -/
structure QwatchResponse where
  clientIdentifierID : Nat
  result : GoVal
  error : Option GoStr
deriving DecidableEq, Repr

/-- The `response interface{}` argument of `processResponse`: either a
`comm.QwatchResponse`, a `*ops.StoreResponse` (carrying its
`EvalResponse.Result` and `EvalResponse.Error`), or any other type
(the `default` branch of the type switch). -/
inductive Response where
  | qwatch (resp : QwatchResponse)
  | store (result : GoVal) (error : Option GoStr)
  | otherResp (tag : Nat)
deriving DecidableEq, Repr

/-- The fixed notice `"error: 500 Internal Server Error"`. -/
def internalErrNotice : GoStr := strLit "error: 500 Internal Server Error"

/-- The fixed notice `"error: marshaling json"`. -/
def marshalErrNotice : GoStr := strLit "error: marshaling json"

/-- The array `respArr` from `processResponse` (websocketServer.go lines 212-221):
the literal texts substituted for the eight RESP sentinel codes, in the
order of the `clientio.RespType` constants. -/
def respArr : List GoStr :=
  [ strLit "(nil)"   -- RESP Nil bulk string (null value)
  , strLit "OK"      -- simple string OK
  , strLit "QUEUED"  -- command queued
  , strLit "0"       -- integer 0
  , strLit "1"       -- integer 1
  , strLit "-1"      -- integer -1
  , strLit "-2"      -- integer -2
  , strLit "*0"      -- empty RESP array
  ]

/-- External collaborators of `processResponse`, as consumed by the
websocket server: membership test of `WorkerCmdsMeta`, the RESP decoder
`RESPParser.DecodeOne` run over a byte buffer, `json.Marshal`, and the
connection write (`WriteResponseWithRetries` on this connection: `none`
is a successful write, `some e` a write failure with message `e`). -/
structure TranscodeEnv where
  workerCmdsMeta : GoStr → Bool
  decodeOne : GoStr → Except GoStr GoVal
  marshal : GoVal → Except GoStr GoStr
  write : GoStr → Option GoStr

/-- Outcome of one `processResponse` call: `panic` when the unguarded
type assertion `result.([]byte)` fails, otherwise the ordered list of
payloads handed to the write helper together with the returned error
(`none` = `nil` return, so the dispatch loop continues). -/
inductive ProcOut where
  | panic
  | done (writes : List GoStr) (ret : Option GoStr)
deriving DecidableEq, Repr

/-- The canonicalization step of `processResponse` (lines 247-253): if the
value is a `clientio.RespType`, replace it by the corresponding literal of
`respArr`; then, if the (possibly replaced) value is a `[]byte`, replace it
by `string(bt)` — on the byte-sequence model the identity reinterpretation
of the bytes as text. -/
def canonicalize (v : GoVal) : GoVal :=
  let v1 := match v with
    | GoVal.respType i => GoVal.str (respArr.getD i.val [])
    | _ => v
  match v1 with
  | GoVal.bytes bt => GoVal.str bt
  | _ => v1

/-- Lines 247-267 of `processResponse`: canonicalize the native response
value, JSON-marshal it, and write it with retries; a marshal failure is
logged, answered with `marshalErrNotice` and returns `nil`, a write
failure is returned as an error. -/
def emitResponseValue (env : TranscodeEnv) (responseValue : GoVal) : ProcOut :=
  match env.marshal (canonicalize responseValue) with
  | Except.error _ => ProcOut.done [marshalErrNotice] none
  | Except.ok respBytes =>
    match env.write respBytes with
    | none => ProcOut.done [respBytes] none
    | some e => ProcOut.done [respBytes] (some e)

/-- The type switch at the top of `processResponse` (lines 198-209):
extract `(result, err)` from the two admissible response shapes. -/
def extractResultErr : Response → Option (GoVal × Option GoStr)
  | Response.qwatch r => some (r.result, r.error)
  | Response.store res err => some (res, err)
  | Response.otherResp _ => none

/-- Function `(s *WebsocketServer) processResponse` (lines 192-270).  The
unsupported-shape branch and the RESP-decode-failure branch write
`internalErrNotice` (ignoring the write result) and return `nil`.  On the
unmigrated path (`cmdName` not in `WorkerCmdsMeta`) the decoded buffer is
the error message if an error is present, otherwise the unguarded type
assertion `result.([]byte)` — a panic when the payload is not a byte
slice.  On the migrated path the error's string form, or the native result
as-is, is used. -/
def processResponse (env : TranscodeEnv) (cmdName : GoStr) (response : Response) : ProcOut :=
  match extractResultErr response with
  | none => ProcOut.done [internalErrNotice] none
  | some (result, err) =>
    if env.workerCmdsMeta cmdName then
      match err with
      | some e => emitResponseValue env (GoVal.str e)
      | none => emitResponseValue env result
    else
      match err with
      | some e =>
        match env.decodeOne e with
        | Except.error _ => ProcOut.done [internalErrNotice] none
        | Except.ok v => emitResponseValue env v
      | none =>
        match result with
        | GoVal.bytes bs =>
          match env.decodeOne bs with
          | Except.error _ => ProcOut.done [internalErrNotice] none
          | Except.ok v => emitResponseValue env v
        | _ => ProcOut.panic

/-! ## The write resilience helper `WriteResponseWithRetries` -/

/-- Classification of a failed `conn.WriteMessage` error, following the
chain of checks in `WriteResponseWithRetries` (lines 286-321): not a
`*net.OpError`; a `*net.OpError` whose inner error is not an
`*os.SyscallError`; a syscall error whose syscall is not `"write"`; or a
write syscall error with the given errno (`EPIPE`, `ECONNRESET`,
`ENOBUFS`, `EAGAIN`, or any other errno — the `default` branch). -/
inductive WriteErr where
  | notNetErr
  | notSyscallErr
  | wrongSyscall
  | epipe
  | econnreset
  | enobufs
  | eagain
  | otherErrno
deriving DecidableEq, Repr

/-- Behaviour of one loop iteration of the connection, indexed by the
attempt counter: `SetWriteDeadline` fails; `WriteMessage` succeeds; or
`WriteMessage` fails with a classified error. -/
inductive AttemptRes where
  | deadlineErr
  | ok
  | fail (e : WriteErr)
deriving DecidableEq, Repr

/-- The error value returned by `WriteResponseWithRetries`, when any:
the `SetWriteDeadline` error, or the wrapped write error of the given
class. -/
inductive GoWriteRet where
  | deadlineErr
  | writeErr (e : WriteErr)
deriving DecidableEq, Repr

/-- Observable trace of one `WriteResponseWithRetries` call: the returned
error (`none` = `nil`), the number of `conn.WriteMessage` calls performed,
and the `time.Sleep` durations in milliseconds, in order. -/
structure WriteRun where
  result : Option GoWriteRet
  attempts : Nat
  sleeps : List Nat
deriving DecidableEq, Repr

/-- The retry loop of `WriteResponseWithRetries` (lines 273-322), with
`attempts` the loop counter and `fuel` the remaining iterations
(`maxRetries - attempts`).  Only `EAGAIN` sleeps
`(attempts+1)*100ms + rand.Intn(50)ms` (the oracle `jitter` models
`rand`, reduced mod 50 as `rand.Intn(50)` is) and retries; every other
failure returns immediately; a successful write breaks out of the loop;
falling off the loop returns `nil`. -/
def writeRetriesLoop (conn : Nat → AttemptRes) (jitter : Nat → Nat) :
    Nat → Nat → WriteRun
  | _, 0 => ⟨none, 0, []⟩
  | attempts, fuel + 1 =>
    match conn attempts with
    | AttemptRes.deadlineErr => ⟨some GoWriteRet.deadlineErr, 0, []⟩
    | AttemptRes.ok => ⟨none, 1, []⟩
    | AttemptRes.fail e =>
      if e = WriteErr.eagain then
        let backoffDuration := (attempts + 1) * 100 + jitter attempts % 50
        let r := writeRetriesLoop conn jitter (attempts + 1) fuel
        ⟨r.result, r.attempts + 1, backoffDuration :: r.sleeps⟩
      else ⟨some (GoWriteRet.writeErr e), 1, []⟩

/-- Function `WriteResponseWithRetries(conn, text, maxRetries)`: the loop
`for attempts := 0; attempts < maxRetries; attempts++` runs at most
`maxRetries` iterations (none when `maxRetries <= 0`, `maxRetries` being
a Go `int`). -/
def WriteResponseWithRetries (conn : Nat → AttemptRes) (jitter : Nat → Nat)
    (maxRetries : Int) : WriteRun :=
  writeRetriesLoop conn jitter 0 maxRetries.toNat

/-! ## The live-update fan-out task `processQwatchUpdates` -/

/-- One observation of the `select` in `processQwatchUpdates`: a value
received from `qwatchResponseChan`, or the closed `shutdownChan` being
selected. -/
inductive QwatchObs where
  | update (resp : QwatchResponse)
  | shutdown
deriving DecidableEq, Repr

/-- How a fan-out task run ended: the shutdown signal was observed; a
delivery attempt failed at the write path (with the write error), so the
task logged and returned; `processResponse` panicked; or the observation
list was exhausted with the task still waiting in its `select`. -/
inductive TaskExit where
  | shutdownExit
  | writeFailure (e : GoStr)
  | panicked
  | waiting
deriving DecidableEq, Repr

/-- Observable trace of a fan-out task over a list of observations: how
it ended and every payload written to the connection, in order. -/
structure TaskRun where
  exit : TaskExit
  writes : List GoStr
deriving DecidableEq, Repr

/-- Function `(s *WebsocketServer) processQwatchUpdates` (lines 176-190), run over
a finite list of observations.  The task is pinned to its
`clientIdentifierID` and to the original subscribe command `dicDBCmd`
(whose name `subCmdName` supplies the transcoding context for every
event).  A received response with a different identifier is discarded
without side effects; a matching one goes through `processResponse`, and
a returned write error ends the task. -/
def processQwatchUpdates (env : TranscodeEnv) (clientIdentifierID : Nat)
    (subCmdName : GoStr) : List QwatchObs → TaskRun
  | [] => ⟨TaskExit.waiting, []⟩
  | QwatchObs.shutdown :: _ => ⟨TaskExit.shutdownExit, []⟩
  | QwatchObs.update resp :: rest =>
    if resp.clientIdentifierID = clientIdentifierID then
      match processResponse env subCmdName (Response.qwatch resp) with
      | ProcOut.panic => ⟨TaskExit.panicked, []⟩
      | ProcOut.done ws (some e) => ⟨TaskExit.writeFailure e, ws⟩
      | ProcOut.done ws none =>
        let r := processQwatchUpdates env clientIdentifierID subCmdName rest
        ⟨r.exit, ws ++ r.writes⟩
    else processQwatchUpdates env clientIdentifierID subCmdName rest

/-! ## Abort handling in the dispatch loop -/

/-- Modelled from the spec: the sentinel abort verb `ABORT` (§6 sentinel
verbs); the constant `Abort` is declared in another file of the `server`
package. -/
def Abort : GoStr := strLit "ABORT"

/-- Effect of one dispatch-loop iteration on the shared shutdown signal
(websocketServer.go lines 141-144): on `Abort`, `close(s.shutdownChan)` —
which panics when the channel is already closed — followed by `break`;
any other command leaves the signal untouched and the loop running. -/
inductive LoopStep where
  | continueLoop
  | breakLoop
  | panicStep
deriving DecidableEq, Repr

/-- The abort check of `WebsocketHandler` on one parsed command: returns
the loop step and the new state of the shutdown signal (`true` =
closed). -/
def dispatchAbortCheck (shutdownClosed : Bool) (cmdName : GoStr) :
    LoopStep × Bool :=
  if cmdName = Abort then
    if shutdownClosed then (LoopStep.panicStep, shutdownClosed)
    else (LoopStep.breakLoop, true)
  else (LoopStep.continueLoop, shutdownClosed)

/-- Result of processing a global interleaving of commands (across all
connections) against the shared shutdown signal. -/
inductive AbortOutcome where
  | noPanic (shutdownClosed : Bool)
  | panicked
deriving DecidableEq, Repr

/-- Folds `dispatchAbortCheck` over a global arrival order of commands:
the shutdown signal is shared by every connection's dispatch loop, and no
handler branch other than the abort check mutates it. -/
def runAbortSeq : Bool → List GoStr → AbortOutcome
  | shutdownClosed, [] => AbortOutcome.noPanic shutdownClosed
  | shutdownClosed, c :: rest =>
    match dispatchAbortCheck shutdownClosed c with
    | (LoopStep.panicStep, _) => AbortOutcome.panicked
    | (_, closed1) => runAbortSeq closed1 rest

/-! ## Helper lemmas about the retry loop -/

/-- The sleep durations produced by `k` consecutive `EAGAIN` failures
starting at attempt counter `a`: attempt `a + j` sleeps
`(a + j + 1) * 100 + jitter (a + j) % 50` milliseconds. -/
def eagainSleeps (jitter : Nat → Nat) : Nat → Nat → List Nat
  | _, 0 => []
  | a, k + 1 => ((a + 1) * 100 + jitter a % 50) :: eagainSleeps jitter (a + 1) k

lemma eagainSleeps_length (jitter : Nat → Nat) :
    ∀ a k, (eagainSleeps jitter a k).length = k := by
  intro a k
  induction k generalizing a with
  | zero => rfl
  | succ k ih => simp [eagainSleeps, ih]

lemma writeRetriesLoop_eagain_then_fail (conn : Nat → AttemptRes)
    (jitter : Nat → Nat) (e : WriteErr) (he : e ≠ WriteErr.eagain) :
    ∀ (k a fuel : Nat),
      (∀ j, j < k → conn (a + j) = AttemptRes.fail WriteErr.eagain) →
      conn (a + k) = AttemptRes.fail e → k < fuel →
      writeRetriesLoop conn jitter a fuel =
        ⟨some (GoWriteRet.writeErr e), k + 1, eagainSleeps jitter a k⟩ := by
  intro k
  induction k with
  | zero =>
    intro a fuel hpre hk hf
    obtain ⟨fuel', rfl⟩ : ∃ f, fuel = f + 1 := ⟨fuel - 1, by omega⟩
    rw [Nat.add_zero] at hk
    simp [writeRetriesLoop, hk, he, eagainSleeps]
  | succ k ih =>
    intro a fuel hpre hk hf
    obtain ⟨fuel', rfl⟩ : ∃ f, fuel = f + 1 := ⟨fuel - 1, by omega⟩
    have h0 : conn a = AttemptRes.fail WriteErr.eagain := by
      simpa using hpre 0 (Nat.succ_pos k)
    have ihh := ih (a + 1) fuel'
      (fun j hj => by
        have := hpre (j + 1) (Nat.succ_lt_succ hj)
        simpa [Nat.add_assoc, Nat.add_comm 1 j] using this)
      (by simpa [Nat.add_assoc, Nat.add_comm 1 k] using hk)
      (by omega)
    simp [writeRetriesLoop, h0, ihh, eagainSleeps]

lemma writeRetriesLoop_eagain_then_ok (conn : Nat → AttemptRes)
    (jitter : Nat → Nat) :
    ∀ (k a fuel : Nat),
      (∀ j, j < k → conn (a + j) = AttemptRes.fail WriteErr.eagain) →
      conn (a + k) = AttemptRes.ok → k < fuel →
      writeRetriesLoop conn jitter a fuel =
        ⟨none, k + 1, eagainSleeps jitter a k⟩ := by
  intro k
  induction k with
  | zero =>
    intro a fuel hpre hk hf
    obtain ⟨fuel', rfl⟩ : ∃ f, fuel = f + 1 := ⟨fuel - 1, by omega⟩
    rw [Nat.add_zero] at hk
    simp [writeRetriesLoop, hk, eagainSleeps]
  | succ k ih =>
    intro a fuel hpre hk hf
    obtain ⟨fuel', rfl⟩ : ∃ f, fuel = f + 1 := ⟨fuel - 1, by omega⟩
    have h0 : conn a = AttemptRes.fail WriteErr.eagain := by
      simpa using hpre 0 (Nat.succ_pos k)
    have ihh := ih (a + 1) fuel'
      (fun j hj => by
        have := hpre (j + 1) (Nat.succ_lt_succ hj)
        simpa [Nat.add_assoc, Nat.add_comm 1 j] using this)
      (by simpa [Nat.add_assoc, Nat.add_comm 1 k] using hk)
      (by omega)
    simp [writeRetriesLoop, h0, ihh, eagainSleeps]

lemma writeRetriesLoop_all_eagain (conn : Nat → AttemptRes)
    (jitter : Nat → Nat) :
    ∀ (fuel a : Nat),
      (∀ j, j < fuel → conn (a + j) = AttemptRes.fail WriteErr.eagain) →
      writeRetriesLoop conn jitter a fuel = ⟨none, fuel, eagainSleeps jitter a fuel⟩ := by
  intro fuel
  induction fuel with
  | zero => intro a _; rfl
  | succ fuel ih =>
    intro a hpre
    have h0 : conn a = AttemptRes.fail WriteErr.eagain := by
      simpa using hpre 0 (Nat.succ_pos fuel)
    have ihh := ih (a + 1) (fun j hj => by
      have := hpre (j + 1) (Nat.succ_lt_succ hj)
      simpa [Nat.add_assoc, Nat.add_comm 1 j] using this)
    simp [writeRetriesLoop, h0, ihh, eagainSleeps]

/-! ## Concrete connections used as witnesses -/

/-- A connection whose first write fails with `EPIPE` and succeeds after. -/
def connEpipe : Nat → AttemptRes :=
  fun j => if j = 0 then AttemptRes.fail WriteErr.epipe else AttemptRes.ok

/-- A connection failing with `EAGAIN` on the first three attempts and
succeeding on the fourth. -/
def connEagain3 : Nat → AttemptRes :=
  fun k => if k < 3 then AttemptRes.fail WriteErr.eagain else AttemptRes.ok

/-- A connection on which every write fails with `EAGAIN`. -/
def connEagainAlways : Nat → AttemptRes := fun _ => AttemptRes.fail WriteErr.eagain

/-- A zero jitter oracle. -/
def jitterZero : Nat → Nat := fun _ => 0

/-! ## Claim theorems on the write resilience helper -/

/-- C3: after any run of transient `EAGAIN` failures, a failed write
attempt of any non-`EAGAIN` class — peer reset (`ECONNRESET`), broken pipe
(`EPIPE`), buffer exhaustion (`ENOBUFS`), any other transport-layer error
(`otherErrno`, `wrongSyscall`, `notSyscallErr`) or a non-transport error
(`notNetErr`) — makes `WriteResponseWithRetries` return that terminal
error immediately, with no further attempt (exactly `k + 1` writes) and no
further sleep (exactly `k` sleeps, one per preceding `EAGAIN`); only
`EAGAIN` leads to a retry. -/
theorem write_helper_nonretryable_fails_immediately
    (conn : Nat → AttemptRes) (jitter : Nat → Nat) (maxRetries : Int)
    (k : Nat) (e : WriteErr)
    (hpre : ∀ j, j < k → conn j = AttemptRes.fail WriteErr.eagain)
    (hk : conn k = AttemptRes.fail e)
    (hne : e ≠ WriteErr.eagain)
    (hlt : (k : Int) < maxRetries) :
    (WriteResponseWithRetries conn jitter maxRetries).result
        = some (GoWriteRet.writeErr e) ∧
      (WriteResponseWithRetries conn jitter maxRetries).attempts = k + 1 ∧
      (WriteResponseWithRetries conn jitter maxRetries).sleeps.length = k := by
  have hkf : k < maxRetries.toNat := Int.lt_toNat.mpr hlt
  have hrun := writeRetriesLoop_eagain_then_fail conn jitter e hne k 0
    maxRetries.toNat (fun j hj => by simpa using hpre j hj) (by simpa using hk) hkf
  unfold WriteResponseWithRetries
  rw [hrun]
  exact ⟨rfl, rfl, eagainSleeps_length jitter 0 k⟩

/-- Witness for C3: an `EPIPE` on the very first attempt ends the call at
once with the terminal broken-pipe error. -/
theorem write_helper_nonretryable_fails_immediately_witness :
    (WriteResponseWithRetries connEpipe jitterZero 3).result
        = some (GoWriteRet.writeErr WriteErr.epipe) ∧
      (WriteResponseWithRetries connEpipe jitterZero 3).attempts = 0 + 1 ∧
      (WriteResponseWithRetries connEpipe jitterZero 3).sleeps.length = 0 :=
  write_helper_nonretryable_fails_immediately connEpipe jitterZero 3 0
    WriteErr.epipe (fun j hj => absurd hj (Nat.not_lt_zero j)) rfl
    (by decide) (by decide)

/-- Holds (as `true`) iff each delay of the list is at least twice its predecessor —
the minimal reading of "exponentially increasing delay". -/
def delaysDoubling : List Nat → Bool
  | d1 :: d2 :: rest => decide (2 * d1 ≤ d2) && delaysDoubling (d2 :: rest)
  | _ => true

/-- C4 (code bug): at the failing input — three consecutive `EAGAIN`
failures then a success, zero jitter, `maxRetries = 4` — the helper does
succeed within the budget with exactly three bounded sleeps, but the base
delays are `100, 200, 300` ms: linearly increasing in the attempt count,
not exponentially increasing as the code's own `Exponential backoff with
jitter` comment (and the claim) state — already the third delay fails to
keep a growth ratio of two. -/
theorem write_helper_backoff_linear_at_failing_input :
    WriteResponseWithRetries connEagain3 jitterZero 4 = ⟨none, 4, [100, 200, 300]⟩ ∧
      delaysDoubling (WriteResponseWithRetries connEagain3 jitterZero 4).sleeps
        = false := by
  decide

/-- C5: when every one of the `maxRetries` attempts fails with the
transient `EAGAIN` error, the loop exits normally after the retry budget
is spent and the helper returns a non-error (`nil`) result. -/
theorem write_helper_retry_exhaustion_returns_nil
    (conn : Nat → AttemptRes) (jitter : Nat → Nat) (maxRetries : Int)
    (hall : ∀ j : Nat, (j : Int) < maxRetries →
      conn j = AttemptRes.fail WriteErr.eagain) :
    (WriteResponseWithRetries conn jitter maxRetries).result = none ∧
      (WriteResponseWithRetries conn jitter maxRetries).attempts
        = maxRetries.toNat := by
  have hrun := writeRetriesLoop_all_eagain conn jitter maxRetries.toNat 0
    (fun j hj => by simpa using hall j (Int.lt_toNat.mp hj))
  unfold WriteResponseWithRetries
  rw [hrun]
  exact ⟨rfl, rfl⟩

/-- Witness for C5: two attempts, both `EAGAIN`, budget 2 — the helper
returns `nil`. -/
theorem write_helper_retry_exhaustion_returns_nil_witness :
    (WriteResponseWithRetries connEagainAlways jitterZero 2).result = none ∧
      (WriteResponseWithRetries connEagainAlways jitterZero 2).attempts
        = (2 : Int).toNat :=
  write_helper_retry_exhaustion_returns_nil connEagainAlways jitterZero 2
    (fun _ _ => rfl)

/-- C9: with a zero or negative maximum retry count the helper performs no
write attempt, no sleep, and returns success (`nil`): the payload is
silently dropped while the caller observes a successful write. -/
theorem write_helper_nonpositive_budget_drops_payload
    (conn : Nat → AttemptRes) (jitter : Nat → Nat) (maxRetries : Int)
    (h : maxRetries ≤ 0) :
    WriteResponseWithRetries conn jitter maxRetries = ⟨none, 0, []⟩ := by
  unfold WriteResponseWithRetries
  rw [Int.toNat_of_nonpos h]
  rfl

/-- Witness for C9: budget `-1` on a connection that would fail with
`EPIPE` — nothing is attempted and `nil` is returned. -/
theorem write_helper_nonpositive_budget_drops_payload_witness :
    WriteResponseWithRetries connEpipe jitterZero (-1) = ⟨none, 0, []⟩ :=
  write_helper_nonpositive_budget_drops_payload connEpipe jitterZero (-1)
    (by decide)

/-! ## Concrete transcoding environments used as witnesses -/

/-- A concrete environment: the registry holds exactly `PING`; the
decoder accepts exactly the buffer `+PONG` (yielding the string `PONG`);
marshalling succeeds exactly on strings (returned unchanged); writes
always succeed. -/
def envA : TranscodeEnv where
  workerCmdsMeta := fun c => decide (c = strLit "PING")
  decodeOne := fun bs =>
    if bs = strLit "+PONG" then Except.ok (GoVal.str (strLit "PONG"))
    else Except.error (strLit "decode error")
  marshal := fun v =>
    match v with
    | GoVal.str s => Except.ok s
    | _ => Except.error (strLit "json: unsupported type")
  write := fun _ => none

/-- Like `envA` but with an empty registry and a connection on which
every write fails with a broken-pipe error. -/
def envB : TranscodeEnv where
  workerCmdsMeta := fun _ => false
  decodeOne := fun bs =>
    if bs = strLit "+PONG" then Except.ok (GoVal.str (strLit "PONG"))
    else Except.error (strLit "decode error")
  marshal := fun v =>
    match v with
    | GoVal.str s => Except.ok s
    | _ => Except.error (strLit "json: unsupported type")
  write := fun _ => some (strLit "broken pipe")

/-! ## Claim theorems on the response transcoder -/

/-- C1: the canonicalization step replaces each of the eight protocol
sentinel codes by exactly the corresponding literal text, replaces a raw
byte payload by the text of those bytes with no further transformation,
and receives the native value in the same way from the migrated path
(value used as-is) and from the legacy path (RESP-decoded value), both
funnelling into `emitResponseValue` before JSON serialization. -/
theorem transcoder_canonicalizes_sentinels_and_bytes :
    (canonicalize (GoVal.respType 0) = GoVal.str (strLit "(nil)")
      ∧ canonicalize (GoVal.respType 1) = GoVal.str (strLit "OK")
      ∧ canonicalize (GoVal.respType 2) = GoVal.str (strLit "QUEUED")
      ∧ canonicalize (GoVal.respType 3) = GoVal.str (strLit "0")
      ∧ canonicalize (GoVal.respType 4) = GoVal.str (strLit "1")
      ∧ canonicalize (GoVal.respType 5) = GoVal.str (strLit "-1")
      ∧ canonicalize (GoVal.respType 6) = GoVal.str (strLit "-2")
      ∧ canonicalize (GoVal.respType 7) = GoVal.str (strLit "*0"))
    ∧ (∀ bs : GoStr, canonicalize (GoVal.bytes bs) = GoVal.str bs)
    ∧ (∀ (env : TranscodeEnv) (cmdName : GoStr) (v : GoVal),
        env.workerCmdsMeta cmdName = true →
        processResponse env cmdName (Response.store v none)
          = emitResponseValue env v)
    ∧ (∀ (env : TranscodeEnv) (cmdName bs : GoStr) (v : GoVal),
        env.workerCmdsMeta cmdName = false →
        env.decodeOne bs = Except.ok v →
        processResponse env cmdName (Response.store (GoVal.bytes bs) none)
          = emitResponseValue env v) := by
  refine ⟨⟨rfl, rfl, rfl, rfl, rfl, rfl, rfl, rfl⟩, fun bs => rfl, ?_, ?_⟩
  · intro env cmdName v hmeta
    simp [processResponse, extractResultErr, hmeta]
  · intro env cmdName bs v hmeta hdec
    simp [processResponse, extractResultErr, hmeta, hdec]

/-- Witness for C1: a migrated `PING` sentinel result and a legacy
RESP-decoded byte buffer are both emitted through the same
canonicalization. -/
theorem transcoder_canonicalizes_sentinels_and_bytes_witness :
    processResponse envA (strLit "PING") (Response.store (GoVal.respType 1) none)
        = emitResponseValue envA (GoVal.respType 1)
    ∧ processResponse envA (strLit "GET")
        (Response.store (GoVal.bytes (strLit "+PONG")) none)
        = emitResponseValue envA (GoVal.str (strLit "PONG")) :=
  ⟨transcoder_canonicalizes_sentinels_and_bytes.2.2.1 envA (strLit "PING")
      (GoVal.respType 1) (by decide),
    transcoder_canonicalizes_sentinels_and_bytes.2.2.2 envA (strLit "GET")
      (strLit "+PONG") (GoVal.str (strLit "PONG")) (by decide) rfl⟩

/-- C2: the Transcoder selects between exactly two paths by membership of
the command name in the registry: absent (legacy) — the error message, or
otherwise the raw result bytes, is run through the store's binary
response decoder; present (migrated) — the native result is used as-is,
or the string form of the error when one is present. -/
theorem transcoder_path_selection_by_registry
    (env : TranscodeEnv) (cmdName : GoStr) (response : Response)
    (result : GoVal) (err : GoStr) :
    (env.workerCmdsMeta cmdName = false →
        extractResultErr response = some (result, some err) →
        processResponse env cmdName response
          = match env.decodeOne err with
            | Except.error _ => ProcOut.done [internalErrNotice] none
            | Except.ok v => emitResponseValue env v)
    ∧ (∀ bs : GoStr, env.workerCmdsMeta cmdName = false →
        extractResultErr response = some (GoVal.bytes bs, none) →
        processResponse env cmdName response
          = match env.decodeOne bs with
            | Except.error _ => ProcOut.done [internalErrNotice] none
            | Except.ok v => emitResponseValue env v)
    ∧ (env.workerCmdsMeta cmdName = true →
        extractResultErr response = some (result, some err) →
        processResponse env cmdName response
          = emitResponseValue env (GoVal.str err))
    ∧ (env.workerCmdsMeta cmdName = true →
        extractResultErr response = some (result, none) →
        processResponse env cmdName response
          = emitResponseValue env result) := by
  refine ⟨?_, ?_, ?_, ?_⟩
  · intro hmeta hx
    simp [processResponse, hx, hmeta]
  · intro bs hmeta hx
    simp [processResponse, hx, hmeta]
  · intro hmeta hx
    simp [processResponse, hx, hmeta]
  · intro hmeta hx
    simp [processResponse, hx, hmeta]

/-- Witness for C2: a legacy command with an error is answered through
the decoder (which rejects the message here), and a migrated command with
an error is answered with the error's string form. -/
theorem transcoder_path_selection_by_registry_witness :
    processResponse envA (strLit "GET")
        (Response.store (GoVal.intVal 5) (some (strLit "ERR wrongtype")))
        = ProcOut.done [internalErrNotice] none
    ∧ processResponse envA (strLit "PING")
        (Response.store (GoVal.intVal 5) (some (strLit "ERR wrongtype")))
        = emitResponseValue envA (GoVal.str (strLit "ERR wrongtype")) :=
  ⟨(transcoder_path_selection_by_registry envA (strLit "GET")
      (Response.store (GoVal.intVal 5) (some (strLit "ERR wrongtype")))
      (GoVal.intVal 5) (strLit "ERR wrongtype")).1 (by decide) rfl,
    (transcoder_path_selection_by_registry envA (strLit "PING")
      (Response.store (GoVal.intVal 5) (some (strLit "ERR wrongtype")))
      (GoVal.intVal 5) (strLit "ERR wrongtype")).2.2.1 (by decide) rfl⟩

lemma emitResponseValue_ne_panic (env : TranscodeEnv) (v : GoVal) :
    emitResponseValue env v ≠ ProcOut.panic := by
  unfold emitResponseValue
  split
  · simp
  · split <;> simp

/-- C6 counterexample: a JSON serialization failure (here a migrated
result of a shape the marshaller rejects) is answered with the fixed
marshaling notice `error: marshaling json`, not with the fixed
internal-error notice `error: 500 Internal Server Error` the claim
names for every transcoding failure. -/
theorem transcoder_marshal_failure_notice_counterexample :
    processResponse envA (strLit "PING") (Response.store GoVal.nilVal none)
        = ProcOut.done [marshalErrNotice] none
    ∧ marshalErrNotice ≠ internalErrNotice := by
  exact ⟨rfl, by decide⟩

/-- C6 amended: every transcoding failure — unsupported response shape,
undecodable payload on the legacy path (error message or byte payload),
or JSON serialization failure — answers the client with a fixed notice
(`error: 500 Internal Server Error` for the first two classes,
`error: marshaling json` for serialization failures) and returns a
non-terminal `nil` result, never a panic, so the dispatch loop
continues. -/
theorem transcoder_failures_nonterminal_with_fixed_notices
    (env : TranscodeEnv) (cmdName : GoStr) :
    (∀ tag, processResponse env cmdName (Response.otherResp tag)
        = ProcOut.done [internalErrNotice] none)
    ∧ (∀ (response : Response) (result : GoVal) (err d : GoStr),
        env.workerCmdsMeta cmdName = false →
        extractResultErr response = some (result, some err) →
        env.decodeOne err = Except.error d →
        processResponse env cmdName response
          = ProcOut.done [internalErrNotice] none)
    ∧ (∀ (response : Response) (bs d : GoStr),
        env.workerCmdsMeta cmdName = false →
        extractResultErr response = some (GoVal.bytes bs, none) →
        env.decodeOne bs = Except.error d →
        processResponse env cmdName response
          = ProcOut.done [internalErrNotice] none)
    ∧ (∀ (v : GoVal) (m : GoStr),
        env.workerCmdsMeta cmdName = true →
        env.marshal (canonicalize v) = Except.error m →
        processResponse env cmdName (Response.store v none)
          = ProcOut.done [marshalErrNotice] none) := by
  refine ⟨fun tag => rfl, ?_, ?_, ?_⟩
  · intro response result err d hmeta hx hdec
    simp [processResponse, hx, hmeta, hdec]
  · intro response bs d hmeta hx hdec
    simp [processResponse, hx, hmeta, hdec]
  · intro v m hmeta hmar
    simp [processResponse, extractResultErr, hmeta, emitResponseValue, hmar]

/-- Witness for C6 (amended): a legacy error message the decoder rejects
yields the internal-error notice and a `nil` return; a migrated
unmarshalable value yields the marshaling notice and a `nil` return. -/
theorem transcoder_failures_nonterminal_with_fixed_notices_witness :
    processResponse envA (strLit "GET")
        (Response.store GoVal.nilVal (some (strLit "ERR unknown command")))
        = ProcOut.done [internalErrNotice] none
    ∧ processResponse envA (strLit "PING")
        (Response.store (GoVal.intVal 7) none)
        = ProcOut.done [marshalErrNotice] none :=
  ⟨(transcoder_failures_nonterminal_with_fixed_notices envA
      (strLit "GET")).2.1
      (Response.store GoVal.nilVal (some (strLit "ERR unknown command")))
      GoVal.nilVal (strLit "ERR unknown command") (strLit "decode error")
      (by decide) rfl rfl,
    (transcoder_failures_nonterminal_with_fixed_notices envA
      (strLit "PING")).2.2.2 (GoVal.intVal 7)
      (strLit "json: unsupported type") (by decide) rfl⟩

/-- Whether a native value is a Go byte slice. -/
def isByteSlice : GoVal → Bool
  | GoVal.bytes _ => true
  | _ => false

/-- C10: `processResponse` panics exactly when the command is on the
unmigrated path (name absent from the registry), the response is of an
admissible shape with no error present, and the success payload is not a
byte slice — the unguarded type assertion `result.([]byte)`; under the
precondition that every unmigrated-path success payload is byte-encoded
it is panic-free. -/
theorem transcoder_panic_iff_unmigrated_nonbyte_success
    (env : TranscodeEnv) (cmdName : GoStr) (response : Response) :
    processResponse env cmdName response = ProcOut.panic ↔
      (env.workerCmdsMeta cmdName = false
        ∧ ∃ result, extractResultErr response = some (result, none)
            ∧ isByteSlice result = false) := by
  constructor
  · intro hp
    cases hx : extractResultErr response with
    | none => simp [processResponse, hx] at hp
    | some pair =>
      obtain ⟨result, err⟩ := pair
      cases hm : env.workerCmdsMeta cmdName with
      | true =>
        cases err with
        | some e =>
          simp [processResponse, hx, hm,
            emitResponseValue_ne_panic env (GoVal.str e)] at hp
        | none =>
          simp [processResponse, hx, hm,
            emitResponseValue_ne_panic env result] at hp
      | false =>
        cases err with
        | some e =>
          cases hd : env.decodeOne e with
          | error d => simp [processResponse, hx, hm, hd] at hp
          | ok v =>
            simp [processResponse, hx, hm, hd,
              emitResponseValue_ne_panic env v] at hp
        | none =>
          cases result with
          | bytes bs =>
            cases hd : env.decodeOne bs with
            | error d => simp [processResponse, hx, hm, hd] at hp
            | ok v =>
              simp [processResponse, hx, hm, hd,
                emitResponseValue_ne_panic env v] at hp
          | str s => exact ⟨rfl, GoVal.str s, rfl, rfl⟩
          | respType i => exact ⟨rfl, GoVal.respType i, rfl, rfl⟩
          | intVal n => exact ⟨rfl, GoVal.intVal n, rfl, rfl⟩
          | nilVal => exact ⟨rfl, GoVal.nilVal, rfl, rfl⟩
          | otherVal tag => exact ⟨rfl, GoVal.otherVal tag, rfl, rfl⟩
  · rintro ⟨hm, result, hx, hnb⟩
    cases result with
    | bytes bs => simp [isByteSlice] at hnb
    | str s => simp [processResponse, hx, hm]
    | respType i => simp [processResponse, hx, hm]
    | intVal n => simp [processResponse, hx, hm]
    | nilVal => simp [processResponse, hx, hm]
    | otherVal tag => simp [processResponse, hx, hm]

/-! ## Claim theorems on the fan-out task -/

/-- C8: the fan-out task discards events whose embedded client identifier
differs from its own without side effects; on a match it runs the event
through `processResponse` — with the original subscribe command's name
`subCmdName` as the transcoding context — and the write helper; it exits
when the shutdown signal is observed or when a delivery attempt fails at
the write path. -/
theorem qwatch_fanout_filters_and_uses_subscribe_context
    (env : TranscodeEnv) (clientID : Nat) (subCmdName : GoStr) :
    (∀ (resp : QwatchResponse) (rest : List QwatchObs),
        resp.clientIdentifierID ≠ clientID →
        processQwatchUpdates env clientID subCmdName
            (QwatchObs.update resp :: rest)
          = processQwatchUpdates env clientID subCmdName rest)
    ∧ (∀ rest : List QwatchObs,
        processQwatchUpdates env clientID subCmdName
            (QwatchObs.shutdown :: rest)
          = ⟨TaskExit.shutdownExit, []⟩)
    ∧ (∀ (resp : QwatchResponse) (rest : List QwatchObs)
          (ws : List GoStr) (e : GoStr),
        resp.clientIdentifierID = clientID →
        processResponse env subCmdName (Response.qwatch resp)
          = ProcOut.done ws (some e) →
        processQwatchUpdates env clientID subCmdName
            (QwatchObs.update resp :: rest)
          = ⟨TaskExit.writeFailure e, ws⟩)
    ∧ (∀ (resp : QwatchResponse) (rest : List QwatchObs) (ws : List GoStr),
        resp.clientIdentifierID = clientID →
        processResponse env subCmdName (Response.qwatch resp)
          = ProcOut.done ws none →
        processQwatchUpdates env clientID subCmdName
            (QwatchObs.update resp :: rest)
          = ⟨(processQwatchUpdates env clientID subCmdName rest).exit,
              ws ++ (processQwatchUpdates env clientID subCmdName rest).writes⟩) := by
  refine ⟨?_, fun rest => rfl, ?_, ?_⟩
  · intro resp rest hne
    simp [processQwatchUpdates, hne]
  · intro resp rest ws e heq hpr
    simp [processQwatchUpdates, heq, hpr]
  · intro resp rest ws heq hpr
    simp [processQwatchUpdates, heq, hpr]

/-- Witness for C8: an event for identifier 8 is discarded by the task
for identifier 7; a matching event whose delivery fails at the write path
ends the task with the write failure after writing the transcoded
payload. -/
theorem qwatch_fanout_filters_and_uses_subscribe_context_witness :
    processQwatchUpdates envA 7 (strLit "QWATCH")
        [QwatchObs.update ⟨8, GoVal.nilVal, none⟩]
      = processQwatchUpdates envA 7 (strLit "QWATCH") []
    ∧ processQwatchUpdates envB 7 (strLit "QWATCH")
        [QwatchObs.update ⟨7, GoVal.bytes (strLit "+PONG"), none⟩]
      = ⟨TaskExit.writeFailure (strLit "broken pipe"), [strLit "PONG"]⟩ :=
  ⟨(qwatch_fanout_filters_and_uses_subscribe_context envA 7
      (strLit "QWATCH")).1 ⟨8, GoVal.nilVal, none⟩ [] (by decide),
    (qwatch_fanout_filters_and_uses_subscribe_context envB 7
      (strLit "QWATCH")).2.2.1 ⟨7, GoVal.bytes (strLit "+PONG"), none⟩ []
      [strLit "PONG"] (strLit "broken pipe") rfl rfl⟩

/-! ## Claim theorems on abort handling -/

/-- Number of abort commands in a global arrival order. -/
def countAbortCmds : List GoStr → Nat
  | [] => 0
  | c :: rest => (if c = Abort then 1 else 0) + countAbortCmds rest

lemma runAbortSeq_count_zero :
    ∀ (l : List GoStr) (b : Bool), countAbortCmds l = 0 →
      runAbortSeq b l = AbortOutcome.noPanic b := by
  intro l
  induction l with
  | nil => intro b _; rfl
  | cons c rest ih =>
    intro b h0
    by_cases hc : c = Abort
    · rw [countAbortCmds, if_pos hc] at h0; omega
    · rw [countAbortCmds, if_neg hc] at h0
      simp only [runAbortSeq, dispatchAbortCheck, if_neg hc]
      exact ih b (by omega)

/-- C7 counterexample: an abort command arriving after a first abort has
already closed the shared shutdown signal — as when a second connection
aborts after a first one — panics the process: `close(s.shutdownChan)` is
executed on an already-closed channel. -/
theorem double_abort_panics_counterexample :
    runAbortSeq false [Abort, Abort] = AbortOutcome.panicked := by
  decide

/-- C7 amended: receiving the sentinel abort command while the shutdown
signal is open closes it and terminates that connection's dispatch loop,
and no other command touches the signal, so any global arrival order with
at most one abort leaves the process panic-free and the signal
transitions at most once; but an abort received when the signal is
already closed panics the process (close of a closed channel). -/
theorem abort_closes_shutdown_and_second_abort_panics :
    dispatchAbortCheck false Abort = (LoopStep.breakLoop, true)
    ∧ (∀ (closed : Bool) (c : GoStr), c ≠ Abort →
        dispatchAbortCheck closed c = (LoopStep.continueLoop, closed))
    ∧ (∀ l : List GoStr, countAbortCmds l ≤ 1 →
        runAbortSeq false l ≠ AbortOutcome.panicked)
    ∧ dispatchAbortCheck true Abort = (LoopStep.panicStep, true) := by
  refine ⟨rfl, ?_, ?_, rfl⟩
  · intro closed c hc
    simp [dispatchAbortCheck, hc]
  · intro l
    induction l with
    | nil => intro _ h; simp [runAbortSeq] at h
    | cons c rest ih =>
      intro hcount
      by_cases hc : c = Abort
      · subst hc
        rw [countAbortCmds, if_pos rfl] at hcount
        have h0 : countAbortCmds rest = 0 := by omega
        have hstep : dispatchAbortCheck false Abort = (LoopStep.breakLoop, true) := rfl
        simp only [runAbortSeq, hstep]
        rw [runAbortSeq_count_zero rest true h0]
        simp
      · rw [countAbortCmds, if_neg hc] at hcount
        simp only [runAbortSeq, dispatchAbortCheck, if_neg hc]
        exact ih (by omega)

/-- Witness for C7 (amended): a `PING` leaves the signal untouched, and
the order `PING` then a single abort does not panic. -/
theorem abort_closes_shutdown_and_second_abort_panics_witness :
    dispatchAbortCheck false (strLit "PING") = (LoopStep.continueLoop, false)
    ∧ runAbortSeq false [strLit "PING", Abort] ≠ AbortOutcome.panicked :=
  ⟨abort_closes_shutdown_and_second_abort_panics.2.1 false (strLit "PING")
      (by decide),
    abort_closes_shutdown_and_second_abort_panics.2.2.1
      [strLit "PING", Abort] (by decide)⟩

end DiceWS
